import Mathlib

/-!
Verification of `visualize_evolution.py` (NEAT_slimevolley).

The script contains two pipelines, `visualize_network_evolution` and
`create_comparison_gif`.  Both discover a sorted list of snapshot files,
sub-sample it (stride slicing `files[::sample_every]` in the plain pipeline,
`np.linspace(0, N-1, K, dtype=int)` index selection in the comparison
pipeline), render each selected file inside a `try/except` loop that appends
a bitmap to `frames` on success and `continue`s on failure, and finally save
the frames as a looping GIF with per-frame duration `int(1000 / fps)`.

The embedding below models the file lists, the sampling arithmetic, the
render loop (rendering abstracted as an `Option`-returning oracle, `none`
standing for a raised exception), and the final save, in exact (rational /
natural-number) arithmetic.  The float expressions of the source
(`np.linspace` followed by an int cast, `1000 / fps` followed by `int`)
truncate toward zero; for the ranges exercised here that truncation equals
the floor of the exact rational value, which is what the definitions use.
-/

variable {α β : Type}

/-- Python slice `l[::s]` for stride `s ≥ 1` (line 44 of the source:
`network_files = network_files[::sample_every]`).  The auxiliary counter `k`
is the number of elements still to be skipped before the next element is
kept; slicing starts by keeping index 0 and then keeps every `s`-th element. -/
def everyNthAux : List α → Nat → Nat → List α
  | [], _, _ => []
  | x :: rest, s, 0 => x :: everyNthAux rest s (s - 1)
  | _ :: rest, s, k + 1 => everyNthAux rest s k

/-- Python slice `l[::s]`, i.e. the elements at indices `0, s, 2s, ...`. -/
def everyNth (l : List α) (s : Nat) : List α := everyNthAux l s 0

/-- The index selected at position `i` by
`np.linspace(0, n-1, k, dtype=int)` (line 133 of the source), in exact
arithmetic: the linearly interpolated value `i*(n-1)/(k-1)` truncated toward
zero (the `dtype=int` cast truncates; values are nonnegative, so this is the
floor).  Nat division by `0` yields `0`, matching `linspace` with `k = 1`,
whose only sample is the start point `0`. -/
def evenIdx (n k i : Nat) : Nat := i * (n - 1) / (k - 1)

/-- Lines 132-134 of the source: when more files exist than requested
snapshots, keep the files at the `linspace` indices, otherwise keep the whole
list (`if len(network_files) > num_snapshots:`). -/
def evenSample (files : List α) (k : Nat) : List α :=
  if k < files.length then
    (List.range k).filterMap (fun i => files.get? (evenIdx files.length k i))
  else files

/-- The rendering loop (lines 50-79 and 138-170): each file is rendered
inside `try/except`; on success (`render f = some img`) the bitmap is
appended to the frame list, on a raised exception (`render f = none`) the
loop logs and continues with the next file. -/
def frameLoop (render : α → Option β) : List α → List β
  | [] => []
  | f :: rest =>
    match render f with
    | some img => img :: frameLoop render rest
    | none => frameLoop render rest

/-- The saved GIF (lines 89-95 / 180-186): the ordered frames, the per-frame
duration in milliseconds, and the loop flag (`loop=0` means infinite loop). -/
structure GifOutput (β : Type) where
  frames : List β
  duration : Nat
  loop : Nat
deriving DecidableEq

/-- Observable outcome of a pipeline run: an early `return` with no output
file written (`noOutput`), an uncaught `ZeroDivisionError` from
`1000 / fps` (`divByZero`), or a written GIF (`wrote`). -/
inductive PipeResult (β : Type) where
  | noOutput : PipeResult β
  | divByZero : PipeResult β
  | wrote : GifOutput β → PipeResult β
deriving DecidableEq

/-- `visualize_network_evolution` (lines 14-98): sorted discovery is
abstracted as the input list `files`; empty discovery returns early
(lines 39-41); stride sampling (line 44); the render loop (lines 50-79);
empty-frame early return (lines 81-83); `duration = int(1000 / fps)`
(line 86, a `ZeroDivisionError` when `fps = 0`); the save with `loop=0`
(lines 89-95). -/
def visualize_network_evolution (files : List α) (render : α → Option β)
    (fps sample_every : Nat) : PipeResult β :=
  if files.length = 0 then .noOutput
  else if (frameLoop render (everyNth files sample_every)).length = 0 then .noOutput
  else if fps = 0 then .divByZero
  else .wrote ⟨frameLoop render (everyNth files sample_every), 1000 / fps, 0⟩

/-- `create_comparison_gif` (lines 101-188): same shape as
`visualize_network_evolution` but with `linspace` even sampling
(lines 132-134) instead of stride slicing. -/
def create_comparison_gif (files : List α) (render : α → Option β)
    (fps num_snapshots : Nat) : PipeResult β :=
  if files.length = 0 then .noOutput
  else if (frameLoop render (evenSample files num_snapshots)).length = 0 then .noOutput
  else if fps = 0 then .divByZero
  else .wrote ⟨frameLoop render (evenSample files num_snapshots), 1000 / fps, 0⟩

/-- Resource bookkeeping for one iteration of the render loop. -/
structure IterTrace where
  frame : Option Nat
  figsOpened : List Nat
  figsClosed : List Nat
deriving DecidableEq

/-- One iteration of the render loop (lines 55-79), with figure bookkeeping.
`viewInd` models `nv.viewInd` (line 57) returning a figure, `rasterize`
models the steps from `fig.canvas.draw()` up to `frames.append(img)`
(lines 60-72); either may raise (`none`).  `plt.close(fig)` (line 75) is the
last statement of the `try` block, so it runs only on the success path: when
`rasterize` raises, control jumps to `except` (lines 77-79) and the figure
opened in this iteration is never closed. -/
def renderIter (viewInd : α → Option Nat) (rasterize : Nat → Option Nat)
    (f : α) : IterTrace :=
  match viewInd f with
  | none => ⟨none, [], []⟩
  | some fig =>
    match rasterize fig with
    | none => ⟨none, [fig], []⟩
    | some img => ⟨some img, [fig], [fig]⟩

/-- Python `str.replace(".out", "")` (lines 52 and 140 of the source):
delete every left-to-right, non-overlapping occurrence of the substring
`.out`.  A list shorter than four characters cannot contain an occurrence
and is returned unchanged. -/
def replaceOut : List Char → List Char
  | c0 :: rest1@(c1 :: c2 :: c3 :: rest) =>
    if c0 = '.' ∧ c1 = 'o' ∧ c2 = 'u' ∧ c3 = 't' then replaceOut rest
    else c0 :: replaceOut rest1
  | short => short

/-- Whether the string contains an occurrence of the substring `.out`. -/
def hasOut : List Char → Bool
  | c0 :: rest1@(c1 :: c2 :: c3 :: _) =>
    if c0 = '.' ∧ c1 = 'o' ∧ c2 = 'u' ∧ c3 = 't' then true else hasOut rest1
  | _ => false

/-- The generation label of a snapshot basename (line 52 / line 140 of the
source): `os.path.basename(network_file).replace('.out', '')`. -/
def genLabel (basename : List Char) : List Char := replaceOut basename

/-- Modelled from the spec: "the filename stem", i.e. the base name with its
(final) extension removed — everything before the last dot, or the whole
name when it has no dot. -/
def stemSpec (s : List Char) : List Char :=
  if '.' ∈ s then ((s.reverse.dropWhile (fun c => ¬ c = '.')).drop 1).reverse
  else s

/-- Division rounded to the nearest integer (ties upward):
`round (a / b) = (2a + b) / (2b)` for naturals. -/
def roundNearest (a b : Nat) : Nat := (2 * a + b) / (2 * b)

/-! ### Lemmas about stride sampling -/

theorem everyNthAux_length (s : Nat) (hs : 1 ≤ s) :
    ∀ (l : List α) (k : Nat), (everyNthAux l s k).length = (l.length - k + s - 1) / s := by
  intro l
  induction l with
  | nil =>
    intro k
    have h1 : (List.length ([] : List α)) - k + s - 1 = s - 1 := by simp
    rw [h1, Nat.div_eq_of_lt (by omega)]
    rfl
  | cons x rest ih =>
    intro k
    cases k with
    | zero =>
      show (everyNthAux rest s (s - 1)).length + 1 = (rest.length + 1 - 0 + s - 1) / s
      rw [ih]
      have h2 : rest.length + 1 - 0 + s - 1 = rest.length + s := by omega
      rw [h2, Nat.add_div_right _ (by omega : 0 < s)]
      by_cases hc : s - 1 ≤ rest.length
      · have h3 : rest.length - (s - 1) + s - 1 = rest.length := by omega
        rw [h3]
      · have h3 : rest.length - (s - 1) + s - 1 = s - 1 := by omega
        rw [h3, Nat.div_eq_of_lt (by omega), Nat.div_eq_of_lt (by omega)]
    | succ k =>
      show (everyNthAux rest s k).length = (rest.length + 1 - (k + 1) + s - 1) / s
      rw [ih]
      congr 1
      omega

theorem everyNthAux_get? (s : Nat) (hs : 1 ≤ s) :
    ∀ (l : List α) (k i : Nat), (everyNthAux l s k).get? i = l.get? (k + i * s) := by
  intro l
  induction l with
  | nil => intro k i; rfl
  | cons x rest ih =>
    intro k i
    cases k with
    | zero =>
      cases i with
      | zero =>
        rw [show 0 + 0 * s = 0 by omega]
        rfl
      | succ i =>
        show (everyNthAux rest s (s - 1)).get? i = (x :: rest).get? (0 + (i + 1) * s)
        rw [ih]
        have h : 0 + (i + 1) * s = s - 1 + i * s + 1 := by
          rw [Nat.succ_mul]
          omega
        rw [h, List.get?_cons_succ]
    | succ k =>
      show (everyNthAux rest s k).get? i = (x :: rest).get? (k + 1 + i * s)
      rw [ih]
      have h : k + 1 + i * s = k + i * s + 1 := by omega
      rw [h, List.get?_cons_succ]

theorem mem_everyNthAux (s : Nat) :
    ∀ (l : List α) (k : Nat) (x : α), x ∈ everyNthAux l s k → x ∈ l := by
  intro l
  induction l with
  | nil =>
    intro k x h
    exact absurd h (by simp [everyNthAux])
  | cons y rest ih =>
    intro k x h
    cases k with
    | zero =>
      simp only [everyNthAux, List.mem_cons] at h
      rcases h with h | h
      · exact h ▸ List.mem_cons_self _ _
      · exact List.mem_cons_of_mem _ (ih _ _ h)
    | succ k =>
      simp only [everyNthAux] at h
      exact List.mem_cons_of_mem _ (ih _ _ h)

theorem everyNth_length (l : List α) (s : Nat) (hs : 1 ≤ s) :
    (everyNth l s).length = (l.length + s - 1) / s := by
  show (everyNthAux l s 0).length = (l.length + s - 1) / s
  rw [everyNthAux_length s hs, Nat.sub_zero]

theorem everyNth_get? (l : List α) (s i : Nat) (hs : 1 ≤ s) :
    (everyNth l s).get? i = l.get? (i * s) := by
  show (everyNthAux l s 0).get? i = l.get? (i * s)
  rw [everyNthAux_get? s hs, Nat.zero_add]

theorem everyNth_one (l : List α) : everyNth l 1 = l := by
  show everyNthAux l 1 0 = l
  induction l with
  | nil => rfl
  | cons x rest ih =>
    show x :: everyNthAux rest 1 0 = x :: rest
    rw [ih]

/-! ### Lemmas about the render loop -/

theorem frameLoop_eq_filterMap (render : α → Option β) :
    ∀ l : List α, frameLoop render l = l.filterMap render := by
  intro l
  induction l with
  | nil => rfl
  | cons f rest ih =>
    cases h : render f with
    | none => simp [frameLoop, h, ih, List.filterMap_cons]
    | some img => simp [frameLoop, h, ih, List.filterMap_cons]

theorem frameLoop_filter (render : α → Option β) :
    ∀ l : List α,
      frameLoop render l = (l.filter (fun f => (render f).isSome)).filterMap render := by
  intro l
  induction l with
  | nil => rfl
  | cons f rest ih =>
    cases h : render f with
    | none => simp [frameLoop, h, ih, List.filter_cons]
    | some img => simp [frameLoop, h, ih, List.filter_cons, List.filterMap_cons]

theorem frameLoop_length (render : α → Option β) :
    ∀ l : List α,
      (frameLoop render l).length = (l.filter (fun f => (render f).isSome)).length := by
  intro l
  induction l with
  | nil => rfl
  | cons f rest ih =>
    cases h : render f with
    | none => simp [frameLoop, h, ih, List.filter_cons]
    | some img => simp [frameLoop, h, ih, List.filter_cons]

theorem frameLoop_nil_of_none (render : α → Option β) :
    ∀ l : List α, (∀ f ∈ l, render f = none) → frameLoop render l = [] := by
  intro l
  induction l with
  | nil => intro _; rfl
  | cons f rest ih =>
    intro h
    have hf : render f = none := h f (List.mem_cons_self _ _)
    simp only [frameLoop, hf]
    exact ih (fun g hg => h g (List.mem_cons_of_mem _ hg))

/-! ### Lemmas about even sampling -/

theorem evenIdx_lt (n k i : Nat) (hk : k < n) (hi : i < k) : evenIdx n k i < n := by
  unfold evenIdx
  rcases Nat.lt_or_ge 1 k with h2 | h2
  · have h1 : i * (n - 1) ≤ (k - 1) * (n - 1) := Nat.mul_le_mul_right _ (by omega)
    have h3 : i * (n - 1) / (k - 1) ≤ (k - 1) * (n - 1) / (k - 1) := Nat.div_le_div_right h1
    rw [Nat.mul_div_cancel_left _ (by omega : 0 < k - 1)] at h3
    omega
  · have hi0 : i = 0 := by omega
    subst hi0
    rw [Nat.zero_mul, Nat.zero_div]
    omega

theorem filterMap_get?_length (l : List α) (g : Nat → Nat) :
    ∀ idxs : List Nat, (∀ i ∈ idxs, g i < l.length) →
      (idxs.filterMap (fun i => l.get? (g i))).length = idxs.length := by
  intro idxs
  induction idxs with
  | nil => intro _; rfl
  | cons i rest ih =>
    intro h
    have hi : g i < l.length := h i (List.mem_cons_self _ _)
    rw [List.filterMap_cons, List.get?_eq_get hi]
    simp only [List.length_cons]
    rw [ih (fun j hj => h j (List.mem_cons_of_mem _ hj))]

theorem filterMap_get?_get? (l : List α) (g : Nat → Nat) :
    ∀ (idxs : List Nat) (j : Nat), (∀ i ∈ idxs, g i < l.length) →
      (idxs.filterMap (fun i => l.get? (g i))).get? j
        = (idxs.get? j).bind (fun i => l.get? (g i)) := by
  intro idxs
  induction idxs with
  | nil => intro j _; simp
  | cons i rest ih =>
    intro j h
    have hi : g i < l.length := h i (List.mem_cons_self _ _)
    rw [List.filterMap_cons, List.get?_eq_get hi]
    cases j with
    | zero => simp [List.get?_eq_get hi]
    | succ j =>
      rw [List.get?_cons_succ, List.get?_cons_succ]
      exact ih j (fun a ha => h a (List.mem_cons_of_mem _ ha))

theorem evenSample_length (files : List α) (k : Nat) (hk : k ≤ files.length) :
    (evenSample files k).length = k := by
  unfold evenSample
  by_cases h : k < files.length
  · rw [if_pos h, filterMap_get?_length]
    · exact List.length_range k
    · intro i hi
      exact evenIdx_lt _ _ _ h (List.mem_range.mp hi)
  · rw [if_neg h]
    omega

theorem evenSample_get? (files : List α) (k i : Nat) (hk : k < files.length) (hi : i < k) :
    (evenSample files k).get? i = files.get? (evenIdx files.length k i) := by
  unfold evenSample
  rw [if_pos hk, filterMap_get?_get?]
  · rw [List.get?_range hi, Option.some_bind]
  · intro j hj
    exact evenIdx_lt _ _ _ hk (List.mem_range.mp hj)

theorem mem_evenSample (files : List α) (k : Nat) (x : α) (h : x ∈ evenSample files k) :
    x ∈ files := by
  unfold evenSample at h
  by_cases hk : k < files.length
  · rw [if_pos hk] at h
    rcases List.mem_filterMap.mp h with ⟨i, _, hget⟩
    exact List.get?_mem hget
  · rwa [if_neg hk] at h

/-! ### Further helper lemmas -/

theorem filterMap_length_of_isSome (render : α → Option β) :
    ∀ l : List α, (∀ f ∈ l, (render f).isSome) → (l.filterMap render).length = l.length := by
  intro l
  induction l with
  | nil => intro _; rfl
  | cons f rest ih =>
    intro h
    have hf := h f (List.mem_cons_self _ _)
    rcases Option.isSome_iff_exists.mp hf with ⟨img, himg⟩
    rw [List.filterMap_cons, himg, List.length_cons,
      ih (fun g hg => h g (List.mem_cons_of_mem _ hg))]
    rfl

theorem div_floor_bounds (fps : Nat) (h : 0 < fps) :
    fps * (1000 / fps) ≤ 1000 ∧ 1000 < fps * (1000 / fps + 1) := by
  have hdm := Nat.div_add_mod 1000 fps
  have hm : 1000 % fps < fps := Nat.mod_lt _ h
  constructor
  · omega
  · rw [Nat.mul_add, Nat.mul_one]
    omega

theorem visualize_wrote_inv (files : List α) (render : α → Option β) (fps s : Nat)
    (g : GifOutput β)
    (h : visualize_network_evolution files render fps s = .wrote g) :
    g.duration = 1000 / fps ∧ g.loop = 0 := by
  unfold visualize_network_evolution at h
  split at h
  · exact absurd h (by simp)
  · split at h
    · exact absurd h (by simp)
    · split at h
      · exact absurd h (by simp)
      · injection h with h'
        rw [← h']
        exact ⟨rfl, rfl⟩

theorem comparison_wrote_inv (files : List α) (render : α → Option β) (fps k : Nat)
    (g : GifOutput β)
    (h : create_comparison_gif files render fps k = .wrote g) :
    g.duration = 1000 / fps ∧ g.loop = 0 := by
  unfold create_comparison_gif at h
  split at h
  · exact absurd h (by simp)
  · split at h
    · exact absurd h (by simp)
    · split at h
      · exact absurd h (by simp)
      · injection h with h'
        rw [← h']
        exact ⟨rfl, rfl⟩

theorem hasOut_tail (c : Char) (rest : List Char) (h : hasOut (c :: rest) = false) :
    hasOut rest = false := by
  rcases rest with _ | ⟨c1, _ | ⟨c2, _ | ⟨c3, tl⟩⟩⟩
  · simp [hasOut]
  · simp [hasOut]
  · simp [hasOut]
  · rw [hasOut] at h
    split at h
    · exact absurd h (by simp)
    · exact h

theorem replaceOut_append (pre : List Char) (h : hasOut pre = false) :
    replaceOut (pre ++ ['.', 'o', 'u', 't']) = pre := by
  induction pre with
  | nil => simp [replaceOut]
  | cons c pre' ih =>
    have ih' := ih (hasOut_tail c pre' h)
    rcases pre' with _ | ⟨a, _ | ⟨b, _ | ⟨d, tl⟩⟩⟩
    · simp only [List.cons_append, List.nil_append] at ih' ⊢
      rw [replaceOut, if_neg (fun hcon => absurd hcon.2.1 (by decide)), ih']
    · simp only [List.cons_append, List.nil_append] at ih' ⊢
      rw [replaceOut, if_neg (fun hcon => absurd hcon.2.2.1 (by decide)), ih']
    · simp only [List.cons_append, List.nil_append] at ih' ⊢
      rw [replaceOut, if_neg (fun hcon => absurd hcon.2.2.2 (by decide)), ih']
    · by_cases hcon : c = '.' ∧ a = 'o' ∧ b = 'u' ∧ d = 't'
      · exfalso
        rw [hasOut, if_pos hcon] at h
        exact absurd h (by simp)
      · simp only [List.cons_append] at ih' ⊢
        rw [replaceOut, if_neg hcon, ih']

theorem stemSpec_append (pre : List Char) :
    stemSpec (pre ++ ['.', 'o', 'u', 't']) = pre := by
  unfold stemSpec
  rw [if_pos (by simp), List.reverse_append]
  simp [List.dropWhile]

/-! ### Claim theorems -/

/-- Claim C1: for every list of discovered snapshot files of which M render
successfully (M ≥ 1), the pipeline writes an animation whose frames are
exactly the images of the M successful files, in their original relative
order (the frame list equals the in-order `filterMap` over the successful
files, and its length equals the number of successful files); a render
failure never aborts the run, the failing file is merely excluded. -/
theorem claim_C1 (files : List α) (render : α → Option β) (fps s : Nat)
    (hfps : 0 < fps)
    (hM : (everyNth files s).filter (fun f => (render f).isSome) ≠ []) :
    visualize_network_evolution files render fps s
      = .wrote ⟨((everyNth files s).filter (fun f => (render f).isSome)).filterMap render,
          1000 / fps, 0⟩
    ∧ (((everyNth files s).filter (fun f => (render f).isSome)).filterMap render).length
      = ((everyNth files s).filter (fun f => (render f).isSome)).length := by
  have hall : ∀ f ∈ (everyNth files s).filter (fun f => (render f).isSome),
      (render f).isSome := by
    intro f hf
    exact (List.mem_filter.mp hf).2
  have hframes : frameLoop render (everyNth files s)
      = ((everyNth files s).filter (fun f => (render f).isSome)).filterMap render :=
    frameLoop_filter render (everyNth files s)
  have hlen := filterMap_length_of_isSome render _ hall
  have hfiles : ¬ files.length = 0 := by
    intro h0
    rw [List.length_eq_zero] at h0
    subst h0
    exact hM rfl
  have hfl : ¬ (frameLoop render (everyNth files s)).length = 0 := by
    rw [hframes, hlen]
    intro h0
    exact hM (List.length_eq_zero.mp h0)
  constructor
  · unfold visualize_network_evolution
    rw [if_neg hfiles, if_neg hfl, if_neg (by omega : ¬ fps = 0), hframes]
  · exact hlen

/-- Claim C1 witness: three files, the middle one fails to render; the
output has the two surviving frames in order. -/
theorem claim_C1_witness :
    (0 : Nat) < 2
    ∧ (everyNth [0, 1, 2] 1).filter
        (fun f => ((fun n : Nat => if n = 1 then none else some (10 * n)) f).isSome) ≠ []
    ∧ (visualize_network_evolution [0, 1, 2]
          (fun n : Nat => if n = 1 then none else some (10 * n)) 2 1
        = .wrote ⟨((everyNth [0, 1, 2] 1).filter
              (fun f => ((fun n : Nat => if n = 1 then none else some (10 * n)) f).isSome)).filterMap
              (fun n : Nat => if n = 1 then none else some (10 * n)),
            1000 / 2, 0⟩
      ∧ (((everyNth [0, 1, 2] 1).filter
              (fun f => ((fun n : Nat => if n = 1 then none else some (10 * n)) f).isSome)).filterMap
              (fun n : Nat => if n = 1 then none else some (10 * n))).length
        = ((everyNth [0, 1, 2] 1).filter
              (fun f => ((fun n : Nat => if n = 1 then none else some (10 * n)) f).isSome)).length) :=
  ⟨by decide, by decide,
    claim_C1 [0, 1, 2] (fun n : Nat => if n = 1 then none else some (10 * n)) 2 1
      (by decide) (by decide)⟩

/-- Claim C2, corrected: for every list of N files and requested count
K ≤ N, even sampling selects exactly K files; whenever K ≥ 2 the selection
includes both the first and the last file (its first element is the first
file and its last element, at position K-1, is the last file).  For K ≤ 1
the last file is generally not included (see the counterexample). -/
theorem claim_C2 (files : List α) (k : Nat) (hk : k ≤ files.length) :
    (evenSample files k).length = k
    ∧ (2 ≤ k →
        (evenSample files k).get? 0 = files.get? 0
        ∧ (evenSample files k).get? (k - 1) = files.get? (files.length - 1)) := by
  refine ⟨evenSample_length files k hk, fun h2 => ?_⟩
  by_cases hlt : k < files.length
  · constructor
    · rw [evenSample_get? files k 0 hlt (by omega)]
      unfold evenIdx
      rw [Nat.zero_mul, Nat.zero_div]
    · rw [evenSample_get? files k (k - 1) hlt (by omega)]
      unfold evenIdx
      congr 1
      exact Nat.mul_div_cancel_left _ (by omega)
  · have he : evenSample files k = files := by
      unfold evenSample
      rw [if_neg hlt]
    have hkn : k = files.length := by omega
    rw [he, hkn]
    exact ⟨rfl, rfl⟩

/-- Claim C2 counterexample: with N = 2 files and K = 1 ≤ N, the selection
is just the first file; the last file is not included, contradicting
"the selection always includes the first and the last file". -/
theorem claim_C2_counterexample :
    (1 : Nat) ≤ ([0, 1] : List Nat).length
    ∧ evenSample ([0, 1] : List Nat) 1 = [0]
    ∧ (1 : Nat) ∉ evenSample ([0, 1] : List Nat) 1 := by decide

/-- Claim C2 witness: five files, K = 3: three files selected, first and
last included. -/
theorem claim_C2_witness :
    (3 : Nat) ≤ ([10, 20, 30, 40, 50] : List Nat).length
    ∧ ((evenSample ([10, 20, 30, 40, 50] : List Nat) 3).length = 3
      ∧ (2 ≤ 3 →
          (evenSample ([10, 20, 30, 40, 50] : List Nat) 3).get? 0
            = ([10, 20, 30, 40, 50] : List Nat).get? 0
          ∧ (evenSample ([10, 20, 30, 40, 50] : List Nat) 3).get? (3 - 1)
            = ([10, 20, 30, 40, 50] : List Nat).get?
                (([10, 20, 30, 40, 50] : List Nat).length - 1))) :=
  ⟨by decide, claim_C2 ([10, 20, 30, 40, 50] : List Nat) 3 (by decide)⟩

/-- Claim C3, corrected: the i-th index chosen by even sampling is the
linear interpolation `i*(N-1)/(K-1)` truncated toward zero (floored), not
rounded to the nearest integer: the i-th selected file is the file at index
`i*(N-1)/(K-1)` (natural-number division). -/
theorem claim_C3 (files : List α) (k i : Nat) (hk : k < files.length) (hi : i < k) :
    (evenSample files k).get? i = files.get? (i * (files.length - 1) / (k - 1)) :=
  evenSample_get? files k i hk hi

/-- Claim C3 counterexample: the claim as stated — the i-th selected index
equals `round(i*(N-1)/(K-1))` with rounding to nearest — is false: with
N = 4, K = 3, i = 1 the interpolated value is 1.5, the code truncates to
index 1 while rounding to nearest gives index 2. -/
theorem claim_C3_counterexample :
    ¬ ∀ (files : List Nat) (k i : Nat), k < files.length → i < k →
        (evenSample files k).get? i
          = files.get? (roundNearest (i * (files.length - 1)) (k - 1)) := by
  intro h
  have h1 := h [0, 1, 2, 3] 3 1 (by decide) (by decide)
  revert h1
  decide

/-- Claim C3 witness: N = 4, K = 3, i = 1 selects index 1*3/2 = 1. -/
theorem claim_C3_witness :
    (3 : Nat) < ([0, 10, 20, 30] : List Nat).length
    ∧ (1 : Nat) < 3
    ∧ (evenSample ([0, 10, 20, 30] : List Nat) 3).get? 1
      = ([0, 10, 20, 30] : List Nat).get?
          (1 * (([0, 10, 20, 30] : List Nat).length - 1) / (3 - 1)) :=
  ⟨by decide, by decide, claim_C3 ([0, 10, 20, 30] : List Nat) 3 1 (by decide) (by decide)⟩

/-- Claim C4: for every list of files and stride S ≥ 1, stride sampling
selects exactly ⌈N/S⌉ = (N+S-1)/S files, and the i-th selected file is the
file at index i·S of the original list (for every i, as an equality of
optional lookups). -/
theorem claim_C4 (l : List α) (s i : Nat) (hs : 1 ≤ s) :
    (everyNth l s).length = (l.length + s - 1) / s
    ∧ (everyNth l s).get? i = l.get? (i * s) :=
  ⟨everyNth_length l s hs, everyNth_get? l s i hs⟩

/-- Claim C4 witness: five files, stride 2: ⌈5/2⌉ = 3 files, and the file
at selected position 1 is the original index-2 file. -/
theorem claim_C4_witness :
    (1 : Nat) ≤ 2
    ∧ ((everyNth ([10, 20, 30, 40, 50] : List Nat) 2).length
        = (([10, 20, 30, 40, 50] : List Nat).length + 2 - 1) / 2
      ∧ (everyNth ([10, 20, 30, 40, 50] : List Nat) 2).get? 1
        = ([10, 20, 30, 40, 50] : List Nat).get? (1 * 2)) :=
  ⟨by decide, claim_C4 ([10, 20, 30, 40, 50] : List Nat) 2 1 (by decide)⟩

/-- Claim C5, corrected: whenever either pipeline writes an animation with
a positive fps, the animation loops indefinitely (`loop = 0`) and the
per-frame duration is `⌊1000 / fps⌋` milliseconds — `int(1000 / fps)`
truncates, it does not round to nearest (characterised here as the floor:
`fps·d ≤ 1000 < fps·(d+1)`). -/
theorem claim_C5 (files : List α) (render : α → Option β) (fps s k : Nat)
    (g1 g2 : GifOutput β) (hfps : 0 < fps)
    (h1 : visualize_network_evolution files render fps s = .wrote g1)
    (h2 : create_comparison_gif files render fps k = .wrote g2) :
    (g1.loop = 0 ∧ fps * g1.duration ≤ 1000 ∧ 1000 < fps * (g1.duration + 1))
    ∧ (g2.loop = 0 ∧ fps * g2.duration ≤ 1000 ∧ 1000 < fps * (g2.duration + 1)) := by
  rcases visualize_wrote_inv files render fps s g1 h1 with ⟨hd1, hl1⟩
  rcases comparison_wrote_inv files render fps k g2 h2 with ⟨hd2, hl2⟩
  rcases div_floor_bounds fps hfps with ⟨hb1, hb2⟩
  rw [hd1, hd2, hl1, hl2]
  exact ⟨⟨rfl, hb1, hb2⟩, ⟨rfl, hb1, hb2⟩⟩

/-- Claim C5 counterexample: the claim as stated says the duration equals
`round(1000/fps)` for every positive fps; at fps = 7 the code writes
`int(1000/7) = 142` ms while rounding to nearest gives 143 ms. -/
theorem claim_C5_counterexample :
    visualize_network_evolution ([0] : List Nat) (fun n => some n) 7 1
      = .wrote ⟨[0], 142, 0⟩
    ∧ roundNearest 1000 7 = 143
    ∧ (142 : Nat) ≠ 143 := by decide

/-- Claim C5 witness: fps = 2, one frame, duration 500 ms, infinite loop. -/
theorem claim_C5_witness :
    (0 : Nat) < 2
    ∧ visualize_network_evolution ([0] : List Nat) (fun n => some n) 2 1
      = .wrote ⟨[0], 500, 0⟩
    ∧ create_comparison_gif ([0] : List Nat) (fun n => some n) 2 1
      = .wrote ⟨[0], 500, 0⟩
    ∧ (((0 : Nat) = 0 ∧ 2 * 500 ≤ 1000 ∧ 1000 < 2 * (500 + 1))
        ∧ ((0 : Nat) = 0 ∧ 2 * 500 ≤ 1000 ∧ 1000 < 2 * (500 + 1))) :=
  ⟨by decide, by decide, by decide,
    claim_C5 ([0] : List Nat) (fun n => some n) 2 1 1
      ⟨[0], 500, 0⟩ ⟨[0], 500, 0⟩ (by decide) (by decide) (by decide)⟩

/-- Claim C6: if discovery finds zero files, or every render attempt fails,
both pipelines return normally with no output written (and, the model being
a total function, no exception propagates: the result is `noOutput`, not
`divByZero`). -/
theorem claim_C6 (files : List α) (render : α → Option β) (fps s k : Nat)
    (h : files = [] ∨ ∀ f ∈ files, render f = none) :
    visualize_network_evolution files render fps s = .noOutput
    ∧ create_comparison_gif files render fps k = .noOutput := by
  rcases h with h | h
  · subst h
    constructor
    · unfold visualize_network_evolution
      rw [if_pos (List.length_nil : List.length ([] : List α) = 0)]
    · unfold create_comparison_gif
      rw [if_pos (List.length_nil : List.length ([] : List α) = 0)]
  · have hv : frameLoop render (everyNth files s) = [] := by
      apply frameLoop_nil_of_none
      intro f hf
      exact h f (mem_everyNthAux s files 0 f hf)
    have hc : frameLoop render (evenSample files k) = [] := by
      apply frameLoop_nil_of_none
      intro f hf
      exact h f (mem_evenSample files k f hf)
    constructor
    · unfold visualize_network_evolution
      by_cases h0 : files.length = 0
      · rw [if_pos h0]
      · rw [if_neg h0, if_pos (by rw [hv]; rfl)]
    · unfold create_comparison_gif
      by_cases h0 : files.length = 0
      · rw [if_pos h0]
      · rw [if_neg h0, if_pos (by rw [hc]; rfl)]

/-- Claim C6 witness: two files, every render fails: both pipelines return
`noOutput`. -/
theorem claim_C6_witness :
    (([1, 2] : List Nat) = [] ∨ ∀ f ∈ ([1, 2] : List Nat), (none : Option Nat) = none)
    ∧ (visualize_network_evolution ([1, 2] : List Nat) (fun _ => (none : Option Nat)) 2 1
        = .noOutput
      ∧ create_comparison_gif ([1, 2] : List Nat) (fun _ => (none : Option Nat)) 2 2
        = .noOutput) :=
  ⟨by decide,
    claim_C6 ([1, 2] : List Nat) (fun _ => (none : Option Nat)) 2 1 2 (by decide)⟩

/-- Claim C7: the claim states that the figure acquired in an iteration is
released on every exit path, including when an exception is raised after
the figure was created.  The code violates this: `plt.close(fig)` is the
last statement of the `try` block, so when rasterization raises after
`nv.viewInd` succeeded, the `except` handler runs and the figure is never
closed.  This theorem evaluates the iteration model at such a failing
input: the figure is opened but not closed. -/
theorem claim_C7 :
    (renderIter (fun _ : Nat => some 7) (fun _ => none) 0).figsOpened = [7]
    ∧ (renderIter (fun _ : Nat => some 7) (fun _ => none) 0).figsClosed = []
    ∧ (renderIter (fun _ : Nat => some 7) (fun _ => none) 0).frame = none := by decide

/-- Claim C8, corrected: the code derives the label with
`basename.replace('.out', '')`, which removes every occurrence of `.out`,
not just the final extension.  The label equals the filename stem whenever
the stem itself contains no occurrence of `.out` (in particular for names
like `gen0032.out`); otherwise it differs (see the counterexample). -/
theorem claim_C8 (pre : List Char) (h : hasOut pre = false) :
    genLabel (pre ++ ['.', 'o', 'u', 't']) = stemSpec (pre ++ ['.', 'o', 'u', 't']) := by
  rw [stemSpec_append]
  exact replaceOut_append pre h

/-- Claim C8 counterexample: the basename `a.out.out` gets the label `a`
(both occurrences of `.out` removed), while its stem is `a.out`. -/
theorem claim_C8_counterexample :
    genLabel ['a', '.', 'o', 'u', 't', '.', 'o', 'u', 't'] = ['a']
    ∧ stemSpec ['a', '.', 'o', 'u', 't', '.', 'o', 'u', 't'] = ['a', '.', 'o', 'u', 't']
    ∧ (['a'] : List Char) ≠ ['a', '.', 'o', 'u', 't'] := by
  refine ⟨by simp [genLabel, replaceOut], by decide, by decide⟩

/-- Claim C8 witness: the basename `gen0032.out` gets the label `gen0032`,
its stem. -/
theorem claim_C8_witness :
    hasOut ['g', 'e', 'n', '0', '0', '3', '2'] = false
    ∧ genLabel (['g', 'e', 'n', '0', '0', '3', '2'] ++ ['.', 'o', 'u', 't'])
      = stemSpec (['g', 'e', 'n', '0', '0', '3', '2'] ++ ['.', 'o', 'u', 't']) :=
  ⟨by simp [hasOut], claim_C8 ['g', 'e', 'n', '0', '0', '3', '2'] (by simp [hasOut])⟩

/-- Claim C9: in the comparison pipeline, when the requested snapshot count
K is at least the number N of files, no sub-sampling happens: the selection
is the whole file list, and the pipeline behaves exactly like the plain
pipeline with stride 1 (which keeps every file); fewer than K frames is not
an error. -/
theorem claim_C9 (files : List α) (render : α → Option β) (fps k : Nat)
    (h : files.length ≤ k) :
    evenSample files k = files
    ∧ create_comparison_gif files render fps k
      = visualize_network_evolution files render fps 1 := by
  have he : evenSample files k = files := by
    unfold evenSample
    rw [if_neg (by omega)]
  refine ⟨he, ?_⟩
  unfold create_comparison_gif visualize_network_evolution
  rw [he, everyNth_one]

/-- Claim C9 witness: two files, seven requested snapshots: all two files
are used. -/
theorem claim_C9_witness :
    ([5, 6] : List Nat).length ≤ 7
    ∧ (evenSample ([5, 6] : List Nat) 7 = [5, 6]
      ∧ create_comparison_gif ([5, 6] : List Nat) (fun n => some n) 2 7
        = visualize_network_evolution ([5, 6] : List Nat) (fun n => some n) 2 1) :=
  ⟨by decide, claim_C9 ([5, 6] : List Nat) (fun n => some n) 2 7 (by decide)⟩

/-- Claim C10: with fps = 0 and at least one successfully rendered frame,
both pipelines hit the uncaught `ZeroDivisionError` in `int(1000 / fps)`,
which in the source runs after the rendering loop and the empty-frame check
and before the save call: the run terminates with the error and no output
file is produced. -/
theorem claim_C10 (files : List α) (render : α → Option β) (s k : Nat)
    (h1 : frameLoop render (everyNth files s) ≠ [])
    (h2 : frameLoop render (evenSample files k) ≠ []) :
    visualize_network_evolution files render 0 s = .divByZero
    ∧ create_comparison_gif files render 0 k = .divByZero := by
  have hf1 : ¬ files.length = 0 := by
    intro h0
    rw [List.length_eq_zero] at h0
    subst h0
    exact h1 rfl
  constructor
  · unfold visualize_network_evolution
    rw [if_neg hf1,
      if_neg (fun hl => h1 (List.length_eq_zero.mp hl)), if_pos rfl]
  · unfold create_comparison_gif
    rw [if_neg hf1,
      if_neg (fun hl => h2 (List.length_eq_zero.mp hl)), if_pos rfl]

/-- Claim C10 witness: one file rendering successfully, fps = 0: both
pipelines end in the division-by-zero error. -/
theorem claim_C10_witness :
    frameLoop (fun n : Nat => some n) (everyNth [3] 1) ≠ []
    ∧ frameLoop (fun n : Nat => some n) (evenSample [3] 1) ≠ []
    ∧ (visualize_network_evolution [3] (fun n : Nat => some n) 0 1 = .divByZero
      ∧ create_comparison_gif [3] (fun n : Nat => some n) 0 1 = .divByZero) :=
  ⟨by decide, by decide,
    claim_C10 [3] (fun n : Nat => some n) 1 1 (by decide) (by decide)⟩
